import Mathlib

set_option linter.unusedVariables false

/-!
Shallow embedding of the metric accumulators of `aggregator/types.py`
(datadog-unix-agent): Gauge, BucketGauge, Count, MonotonicCount, Counter,
Histogram, Set, Rate.

Modelling conventions:
* Numeric sample values, timestamps and intervals are rationals (`ℚ`);
  the Python code uses floats, and the claims under study are about the
  discrete control flow and exact arithmetic, not float rounding.
* Python `None` becomes `Option`; Python truthiness of an optional number
  (`x or y`) is `pyOr`, which treats both `None` and `0` as falsy.
* `int(q)` (truncation toward zero) is `pyInt`; `round(q)` (Python 3
  banker's rounding, half to even) is `pyRound`.
* Wall-clock reads (`time()`) become an explicit `now` argument to
  `sample`; the caller-supplied optional timestamp stays `Option ℚ`.
* The opaque `formatter` collaborator is modelled by the `Record`
  constructor: each formatter invocation becomes a `Record` holding
  exactly the keyword arguments the source passes.  `Record.deviceName`
  is an `Option`: `some d` when the call site passes `device_name=...`,
  `none` when the call site omits the keyword (as Histogram's percentile
  loop does).
* Each `flush` returns the emitted records together with the
  post-flush accumulator state (Python mutates in place).
-/

/-- Python truthiness-based `x or y` for an optional number: `None` and
`0` are falsy, so both fall through to the default. -/
def pyOr (x : Option ℚ) (y : ℚ) : ℚ :=
  match x with
  | none => y
  | some v => if v = 0 then y else v

/-- Python `int()` on a rational: truncation toward zero. -/
def pyInt (q : ℚ) : ℤ :=
  if 0 ≤ q then ⌊q⌋ else ⌈q⌉

/-- Python 3 `round()` on a rational: round half to even. -/
def pyRound (q : ℚ) : ℤ :=
  let f := ⌊q⌋
  let frac := q - f
  if frac < 1/2 then f
  else if 1/2 < frac then f + 1
  else if f % 2 = 0 then f else f + 1

/-- Python list indexing `xs[i]` with negative indices counting from the
end; out-of-range falls back to a default (the flushes under study only
index in range). -/
def pyIndex (xs : List ℚ) (i : ℤ) (d : ℚ) : ℚ :=
  if 0 ≤ i then xs.getD i.toNat d
  else xs.getD (xs.length - (-i).toNat) d

/-- The metric-type constants of class `MetricTypes`. -/
inductive MetricTypes where
  | gauge
  | counter
  | rate
  | count
deriving DecidableEq, Repr

/-- One invocation of the opaque `formatter`: the keyword arguments a
`flush` passes.  `deviceName` is `none` when the call site does not pass
the `device_name` keyword at all. -/
structure Record where
  metric : String
  value : ℚ
  timestamp : ℚ
  tags : List String
  hostname : String
  deviceName : Option String
  metricType : MetricTypes
  interval : ℚ
deriving DecidableEq, Repr

/-! ## Gauge (`class Gauge`) -/

/-- State of `Gauge`.  `timestamp` holds `time()` right after
construction and the caller-supplied (possibly absent) timestamp after
each `sample`; `pyOr` reproduces the `self.timestamp or timestamp`
truthiness test in `flush`. -/
structure Gauge where
  name : String
  tags : List String
  hostname : String
  device_name : String
  value : Option ℚ
  last_sample_time : Option ℚ
  timestamp : Option ℚ
deriving DecidableEq, Repr

/-- `Gauge.__init__` (`t0` is the `time()` read). -/
def Gauge.init (name : String) (tags : List String) (hostname device_name : String)
    (t0 : ℚ) : Gauge :=
  { name := name, tags := tags, hostname := hostname, device_name := device_name,
    value := none, last_sample_time := none, timestamp := some t0 }

/-- `Gauge.sample`: overwrite `value`, `last_sample_time` (a `time()`
read, here `now`) and `timestamp`; `sample_rate` is ignored. -/
def Gauge.sample (g : Gauge) (value : ℚ) (sample_rate : ℚ) (now : ℚ)
    (timestamp : Option ℚ) : Gauge :=
  { g with value := some value, last_sample_time := some now,
           timestamp := timestamp }

/-- `Gauge.flush`. -/
def Gauge.flush (g : Gauge) (timestamp interval : ℚ) : List Record × Gauge :=
  match g.value with
  | some v =>
      ([{ metric := g.name,
          timestamp := pyOr g.timestamp timestamp,
          value := v,
          tags := g.tags,
          hostname := g.hostname,
          deviceName := some g.device_name,
          metricType := MetricTypes.gauge,
          interval := interval }],
       { g with value := none })
  | none => ([], g)

/-! ## BucketGauge (`class BucketGauge(Gauge)`) — same state and `sample`
as Gauge, only `flush` differs (always uses the flush timestamp). -/

/-- `BucketGauge.flush` on the inherited Gauge state. -/
def BucketGauge.flush (g : Gauge) (timestamp interval : ℚ) : List Record × Gauge :=
  match g.value with
  | some v =>
      ([{ metric := g.name,
          timestamp := timestamp,
          value := v,
          tags := g.tags,
          hostname := g.hostname,
          deviceName := some g.device_name,
          metricType := MetricTypes.gauge,
          interval := interval }],
       { g with value := none })
  | none => ([], g)

/-! ## Count (`class Count`) -/

/-- State of `Count`. -/
structure Count where
  name : String
  tags : List String
  hostname : String
  device_name : String
  value : Option ℚ
  last_sample_time : Option ℚ
deriving DecidableEq, Repr

/-- `Count.__init__`. -/
def Count.init (name : String) (tags : List String) (hostname device_name : String) :
    Count :=
  { name := name, tags := tags, hostname := hostname, device_name := device_name,
    value := none, last_sample_time := none }

/-- `Count.sample`: `self.value = (self.value or 0) + value`; the rate is
ignored. -/
def Count.sample (c : Count) (value : ℚ) (sample_rate : ℚ) (now : ℚ)
    (timestamp : Option ℚ) : Count :=
  { c with value := some (pyOr c.value 0 + value), last_sample_time := some now }

/-- `Count.flush` (`try/return/finally`: emit, then unset `value`). -/
def Count.flush (c : Count) (timestamp interval : ℚ) : List Record × Count :=
  match c.value with
  | none => ([], c)
  | some v =>
      ([{ metric := c.name,
          value := v,
          timestamp := timestamp,
          tags := c.tags,
          hostname := c.hostname,
          deviceName := some c.device_name,
          metricType := MetricTypes.count,
          interval := interval }],
       { c with value := none })

/-! ## MonotonicCount (`class MonotonicCount`) -/

/-- State of `MonotonicCount`. -/
structure MonotonicCount where
  name : String
  tags : List String
  hostname : String
  device_name : String
  prev_counter : Option ℚ
  curr_counter : Option ℚ
  count : Option ℚ
  last_sample_time : Option ℚ
deriving DecidableEq, Repr

/-- `MonotonicCount.__init__`. -/
def MonotonicCount.init (name : String) (tags : List String)
    (hostname device_name : String) : MonotonicCount :=
  { name := name, tags := tags, hostname := hostname, device_name := device_name,
    prev_counter := none, curr_counter := none, count := none,
    last_sample_time := none }

/-- `MonotonicCount.sample`: first observation only sets `curr_counter`;
later ones shift `curr_counter` into `prev_counter`; whenever both are
set, `count` accumulates the non-negative delta. -/
def MonotonicCount.sample (m : MonotonicCount) (value : ℚ) (sample_rate : ℚ)
    (now : ℚ) (timestamp : Option ℚ) : MonotonicCount :=
  let prev := match m.curr_counter with
    | none => m.prev_counter
    | some c => some c
  let curr := some value
  let count := match prev, curr with
    | some p, some c => some (pyOr m.count 0 + max 0 (c - p))
    | _, _ => m.count
  { m with prev_counter := prev, curr_counter := curr, count := count,
           last_sample_time := some now }

/-- `MonotonicCount.flush`: early `return []` when `count` is unset (no
state change at all); otherwise emit one COUNT record and — in the
`finally` — carry `curr_counter` into `prev_counter` and unset the rest. -/
def MonotonicCount.flush (m : MonotonicCount) (timestamp interval : ℚ) :
    List Record × MonotonicCount :=
  match m.count with
  | none => ([], m)
  | some cnt =>
      ([{ hostname := m.hostname,
          deviceName := some m.device_name,
          tags := m.tags,
          metric := m.name,
          value := cnt,
          timestamp := timestamp,
          metricType := MetricTypes.count,
          interval := interval }],
       { m with prev_counter := m.curr_counter, curr_counter := none,
                count := none })

/-! ## Counter (`class Counter`) -/

/-- State of `Counter` (`value` defaults to `0`, not `None`). -/
structure Counter where
  name : String
  tags : List String
  hostname : String
  device_name : String
  value : ℚ
  last_sample_time : Option ℚ
deriving DecidableEq, Repr

/-- `Counter.__init__`. -/
def Counter.init (name : String) (tags : List String) (hostname device_name : String) :
    Counter :=
  { name := name, tags := tags, hostname := hostname, device_name := device_name,
    value := 0, last_sample_time := none }

/-- `Counter.sample`: `self.value += value * int(1 / sample_rate)` —
truncating `int()`, not `round()`. -/
def Counter.sample (c : Counter) (value : ℚ) (sample_rate : ℚ) (now : ℚ)
    (timestamp : Option ℚ) : Counter :=
  { c with value := c.value + value * (pyInt (1 / sample_rate) : ℚ),
           last_sample_time := some now }

/-- `Counter.flush`: no emptiness guard — always emits one RATE record
with `value / interval`, then resets `value` to `0`. -/
def Counter.flush (c : Counter) (timestamp interval : ℚ) : List Record × Counter :=
  ([{ metric := c.name,
      value := c.value / interval,
      timestamp := timestamp,
      tags := c.tags,
      hostname := c.hostname,
      deviceName := some c.device_name,
      metricType := MetricTypes.rate,
      interval := interval }],
   { c with value := 0 })

/-! ## Histogram (`class Histogram`) -/

/-- `DEFAULT_HISTOGRAM_AGGREGATES`. -/
def DEFAULT_HISTOGRAM_AGGREGATES : List String := ["max", "median", "avg", "count"]

/-- `DEFAULT_HISTOGRAM_PERCENTILES`. -/
def DEFAULT_HISTOGRAM_PERCENTILES : List ℚ := [95/100]

/-- State of `Histogram`.  `aggregates`/`percentiles` come from
`extra_config` or the defaults. -/
structure Histogram where
  name : String
  tags : List String
  hostname : String
  device_name : String
  count : ℤ
  samples : List ℚ
  aggregates : List String
  percentiles : List ℚ
  last_sample_time : Option ℚ
deriving DecidableEq, Repr

/-- `Histogram.__init__` with the `extra_config` resolution already
applied (`none` keys fall back to the defaults). -/
def Histogram.init (name : String) (tags : List String)
    (hostname device_name : String)
    (aggregates : Option (List String)) (percentiles : Option (List ℚ)) :
    Histogram :=
  { name := name, tags := tags, hostname := hostname, device_name := device_name,
    count := 0, samples := [],
    aggregates := aggregates.getD DEFAULT_HISTOGRAM_AGGREGATES,
    percentiles := percentiles.getD DEFAULT_HISTOGRAM_PERCENTILES,
    last_sample_time := none }

/-- `Histogram.sample`: `count += int(1 / sample_rate)`, append the raw
value. -/
def Histogram.sample (h : Histogram) (value : ℚ) (sample_rate : ℚ) (now : ℚ)
    (timestamp : Option ℚ) : Histogram :=
  { h with count := h.count + pyInt (1 / sample_rate),
           samples := h.samples ++ [value],
           last_sample_time := some now }

/-- `Histogram.flush`: guard `if not self.count`; sort the samples;
compute min/max/median/sum/avg/count-rate; keep the aggregators whose
name is configured; then one record per percentile — whose formatter call
passes no `device_name` keyword (hence `deviceName := none`). -/
def Histogram.flush (h : Histogram) (ts interval : ℚ) : List Record × Histogram :=
  if h.count = 0 then ([], h)
  else
    let sorted := h.samples.insertionSort (· ≤ ·)
    let length : ℤ := sorted.length
    let min_ := pyIndex sorted 0 0
    let max_ := pyIndex sorted (-1) 0
    let med := pyIndex sorted (pyRound ((length : ℚ) / 2 - 1)) 0
    let sum_ := sorted.sum
    let avg := sum_ / (length : ℚ)
    let aggregators : List (String × ℚ × MetricTypes) :=
      [("min", min_, MetricTypes.gauge),
       ("max", max_, MetricTypes.gauge),
       ("median", med, MetricTypes.gauge),
       ("avg", avg, MetricTypes.gauge),
       ("sum", sum_, MetricTypes.gauge),
       ("count", (h.count : ℚ) / interval, MetricTypes.rate)]
    let metric_aggrs := aggregators.filter (fun a => h.aggregates.contains a.1)
    let metrics := metric_aggrs.map (fun a =>
      { hostname := h.hostname,
        deviceName := some h.device_name,
        tags := h.tags,
        metric := h.name ++ "." ++ a.1,
        value := a.2.1,
        timestamp := ts,
        metricType := a.2.2,
        interval := interval : Record })
    let pmetrics := h.percentiles.map (fun p =>
      { hostname := h.hostname,
        tags := h.tags,
        metric := h.name ++ "." ++ toString (pyInt (p * 100)) ++ "percentile",
        value := pyIndex sorted (pyRound (p * (length : ℚ) - 1)) 0,
        timestamp := ts,
        metricType := MetricTypes.gauge,
        deviceName := none,
        interval := interval : Record })
    (metrics ++ pmetrics, { h with samples := [], count := 0 })

/-! ## Set (`class Set`) -/

/-- State of `Set` (`values` is a Python set of sampled values). -/
structure SetMetric where
  name : String
  tags : List String
  hostname : String
  device_name : String
  values : Finset ℚ
  last_sample_time : Option ℚ
deriving DecidableEq

/-- `Set.__init__`. -/
def SetMetric.init (name : String) (tags : List String)
    (hostname device_name : String) : SetMetric :=
  { name := name, tags := tags, hostname := hostname, device_name := device_name,
    values := ∅, last_sample_time := none }

/-- `Set.sample`: insert the value; the rate is ignored. -/
def SetMetric.sample (s : SetMetric) (value : ℚ) (sample_rate : ℚ) (now : ℚ)
    (timestamp : Option ℚ) : SetMetric :=
  { s with values := insert value s.values, last_sample_time := some now }

/-- `Set.flush`: emit the cardinality unless empty, then clear. -/
def SetMetric.flush (s : SetMetric) (timestamp interval : ℚ) :
    List Record × SetMetric :=
  if s.values = ∅ then ([], s)
  else
    ([{ hostname := s.hostname,
        deviceName := some s.device_name,
        tags := s.tags,
        metric := s.name,
        value := (s.values.card : ℚ),
        timestamp := timestamp,
        metricType := MetricTypes.gauge,
        interval := interval }],
     { s with values := ∅ })

/-! ## Rate (`class Rate`) -/

/-- The two internal exceptions `Infinity` and `UnknownValue`. -/
inductive RateError where
  | infinity
  | unknownValue
deriving DecidableEq, Repr

/-- State of `Rate`.  Each recorded sample is `(int(time()), value)`. -/
structure Rate where
  name : String
  tags : List String
  hostname : String
  device_name : String
  samples : List (ℤ × ℚ)
  last_sample_time : Option ℚ
deriving DecidableEq, Repr

/-- `Rate.__init__`. -/
def Rate.init (name : String) (tags : List String) (hostname device_name : String) :
    Rate :=
  { name := name, tags := tags, hostname := hostname, device_name := device_name,
    samples := [], last_sample_time := none }

/-- `Rate.sample`: append `(int(now), value)` using the wall-clock read
`now`; caller timestamp and rate are ignored. -/
def Rate.sample (r : Rate) (value : ℚ) (sample_rate : ℚ) (now : ℚ)
    (timestamp : Option ℚ) : Rate :=
  { r with samples := r.samples ++ [(pyInt now, value)],
           last_sample_time := some now }

/-- `Rate._rate`: zero time delta raises `Infinity`, negative value
delta raises `UnknownValue`, else the quotient. -/
def Rate.rateOf (sample1 sample2 : ℤ × ℚ) : Except RateError ℚ :=
  let interval := sample2.1 - sample1.1
  if interval = 0 then Except.error RateError.infinity
  else
    let delta := sample2.2 - sample1.2
    if delta < 0 then Except.error RateError.unknownValue
    else Except.ok (delta / (interval : ℚ))

/-- `Rate.flush`: needs at least two samples (else no state change);
both `_rate` failures are swallowed to an empty emission; the `finally`
always trims `samples` to its last element. -/
def Rate.flush (r : Rate) (timestamp interval : ℚ) : List Record × Rate :=
  if r.samples.length < 2 then ([], r)
  else
    let trimmed := { r with samples := r.samples.drop (r.samples.length - 1) }
    match Rate.rateOf (r.samples.getD (r.samples.length - 2) (0, 0))
        (r.samples.getD (r.samples.length - 1) (0, 0)) with
    | Except.error _ => ([], trimmed)
    | Except.ok val =>
        ([{ hostname := r.hostname,
            deviceName := some r.device_name,
            tags := r.tags,
            metric := r.name,
            value := val,
            timestamp := timestamp,
            metricType := MetricTypes.gauge,
            interval := interval }],
         trimmed)

/-! ## Call sequences

`SampleCall` packages the arguments of one `sample` invocation (with the
wall-clock read made explicit); `runWith` folds a call list through a
variant's `sample`. -/

/-- Arguments of one `sample(value, sample_rate, timestamp)` call,
together with the wall-clock value `time()` would return during it. -/
structure SampleCall where
  value : ℚ
  sample_rate : ℚ
  now : ℚ
  timestamp : Option ℚ
deriving DecidableEq, Repr

/-- Run a list of `sample` calls through a variant's `sample` function. -/
def runWith {σ : Type} (smp : σ → ℚ → ℚ → ℚ → Option ℚ → σ) (s : σ)
    (calls : List SampleCall) : σ :=
  calls.foldl (fun st c => smp st c.value c.sample_rate c.now c.timestamp) s

/-- The rate-blind part of a `sample` call: everything except
`sample_rate`. -/
def SampleCall.dropRate (c : SampleCall) : ℚ × ℚ × Option ℚ :=
  (c.value, c.now, c.timestamp)

/-! ## Concrete example states used by several claims -/

/-- A freshly constructed default-configured histogram named `m`. -/
def histFresh : Histogram := Histogram.init "m" [] "h" "d" none none

/-- `histFresh` after `sample(5); sample(1); sample(9); sample(3)`, each
with rate 1. -/
def histEx : Histogram :=
  (((histFresh.sample 5 1 0 none).sample 1 1 0 none).sample 9 1 0
      none).sample 3 1 0 none

/-- The state `histEx` reaches, written out literally. -/
def histExState : Histogram :=
  { name := "m", tags := [], hostname := "h", device_name := "d",
    count := 4, samples := [5, 1, 9, 3], aggregates := DEFAULT_HISTOGRAM_AGGREGATES,
    percentiles := DEFAULT_HISTOGRAM_PERCENTILES, last_sample_time := some 0 }

/-- A freshly constructed MonotonicCount named `m`. -/
def mcFresh : MonotonicCount := MonotonicCount.init "m" [] "h" "d"

/-- A freshly constructed Counter named `c`. -/
def ctrFresh : Counter := Counter.init "c" [] "h" "d"

/-- A freshly constructed Rate named `r`. -/
def rateFresh : Rate := Rate.init "r" [] "h" "d"

/-- A freshly constructed Gauge named `g` (created at wall-clock 50). -/
def gaugeFresh : Gauge := Gauge.init "g" [] "h" "d" 50

/-- The four sample calls of `histEx` reach exactly `histExState`. -/
lemma histEx_eq_state : histEx = histExState := by
  norm_num [histEx, histFresh, histExState, Histogram.init, Histogram.sample, pyInt]

/-- The record list `histEx` flushes at timestamp 100 with interval 1,
computed once and shared. -/
lemma histEx_flush_records :
    (histEx.flush 100 1).1 =
      [{ metric := "m.max", value := 9, timestamp := 100, tags := [],
         hostname := "h", deviceName := some "d",
         metricType := MetricTypes.gauge, interval := 1 },
       { metric := "m.median", value := 3, timestamp := 100, tags := [],
         hostname := "h", deviceName := some "d",
         metricType := MetricTypes.gauge, interval := 1 },
       { metric := "m.avg", value := 9/2, timestamp := 100, tags := [],
         hostname := "h", deviceName := some "d",
         metricType := MetricTypes.gauge, interval := 1 },
       { metric := "m.count", value := 4, timestamp := 100, tags := [],
         hostname := "h", deviceName := some "d",
         metricType := MetricTypes.rate, interval := 1 },
       { metric := "m.95percentile", value := 9, timestamp := 100, tags := [],
         hostname := "h", deviceName := none,
         metricType := MetricTypes.gauge, interval := 1 }] := by
  rw [histEx_eq_state]
  simp only [histExState, Histogram.flush]
  norm_num
  norm_num [DEFAULT_HISTOGRAM_AGGREGATES, DEFAULT_HISTOGRAM_PERCENTILES]
  simp only [List.filter_cons, List.filter_nil]
  norm_num [pyRound, pyIndex, pyInt, Int.fract]
  simp [show toString (95 : ℤ) = "95" from rfl, Record.mk.injEq]

/-! ## Claims -/

/-- C5: a Histogram with default configuration that received samples
5, 1, 9, 3 (each with sample rate 1) emits on `flush(interval=1)` exactly
the records `m.max=9` (GAUGE), `m.median=3` (GAUGE), `m.avg=4.5` (GAUGE),
`m.count=4` (RATE) and `m.95percentile=9` (GAUGE) — no `min` or `sum`
record — and afterwards `samples` is empty and `count` is `0`. -/
theorem histogram_default_example :
    (histEx.flush 100 1).1 =
      [{ metric := "m.max", value := 9, timestamp := 100, tags := [],
         hostname := "h", deviceName := some "d",
         metricType := MetricTypes.gauge, interval := 1 },
       { metric := "m.median", value := 3, timestamp := 100, tags := [],
         hostname := "h", deviceName := some "d",
         metricType := MetricTypes.gauge, interval := 1 },
       { metric := "m.avg", value := 9/2, timestamp := 100, tags := [],
         hostname := "h", deviceName := some "d",
         metricType := MetricTypes.gauge, interval := 1 },
       { metric := "m.count", value := 4, timestamp := 100, tags := [],
         hostname := "h", deviceName := some "d",
         metricType := MetricTypes.rate, interval := 1 },
       { metric := "m.95percentile", value := 9, timestamp := 100, tags := [],
         hostname := "h", deviceName := none,
         metricType := MetricTypes.gauge, interval := 1 }] ∧
    (histEx.flush 100 1).2.samples = [] ∧ (histEx.flush 100 1).2.count = 0 := by
  refine ⟨histEx_flush_records, ?_, ?_⟩
  · rw [histEx_eq_state]; simp [histExState, Histogram.flush]
  · rw [histEx_eq_state]; simp [histExState, Histogram.flush]

/-- C7: on a fresh MonotonicCount, `sample(10)` then `flush` emits
nothing; then `sample(15)` then `flush` emits exactly one COUNT record
with value `5` — the delta baseline survives the intervening flush. -/
theorem monotonic_cross_window_delta :
    ((mcFresh.sample 10 1 0 none).flush 5 10).1 = [] ∧
    ((((mcFresh.sample 10 1 0 none).flush 5 10).2.sample 15 1 1 none).flush 6 10).1 =
      [{ metric := "m", value := 5, timestamp := 6, tags := [], hostname := "h",
         deviceName := some "d", metricType := MetricTypes.count,
         interval := 10 }] := by
  norm_num [mcFresh, MonotonicCount.init, MonotonicCount.sample, MonotonicCount.flush,
    pyOr]

/-- C2 counterexample: on a fresh MonotonicCount after `sample(10)`, a
flush emits nothing and performs no state carry at all — afterwards
`curr_counter` is still `10` (not unset) and `prev_counter` is still
unset (not the pre-flush `curr_counter`), refuting the claim that flush
always carries state. -/
theorem monotonic_no_carry_counterexample :
    ¬ (((mcFresh.sample 10 1 0 none).flush 5 10).2.prev_counter
          = (mcFresh.sample 10 1 0 none).curr_counter ∧
       ((mcFresh.sample 10 1 0 none).flush 5 10).2.curr_counter = none ∧
       ((mcFresh.sample 10 1 0 none).flush 5 10).2.count = none) := by
  intro hcl
  have h2 := hcl.2.1
  norm_num [mcFresh, MonotonicCount.init, MonotonicCount.sample,
    MonotonicCount.flush] at h2
  exact Option.noConfusion h2

/-- C2 amended: `MonotonicCount.flush` carries state forward
(`prev_counter := curr_counter; curr_counter := unset; count := unset`)
exactly when `count` was set (i.e. when a record is emitted); when
`count` is unset it emits nothing and leaves the state completely
unchanged. -/
theorem monotonic_flush_carry_amended (m : MonotonicCount) (t i : ℚ) :
    ((m.flush t i).1 = [] ↔ m.count = none) ∧
    (m.flush t i).2 = (if m.count = none then m
      else { m with prev_counter := m.curr_counter, curr_counter := none,
                    count := none }) := by
  cases h : m.count <;> simp [MonotonicCount.flush, h]

/-- C1 counterexample: a fresh Counter flushed twice with no samples in
between still emits a record on the second flush (Counter.flush has no
emptiness guard), refuting second-flush emptiness for the Counter
variant. -/
theorem counter_second_flush_counterexample :
    (((ctrFresh.flush 1 1).2.flush 2 1).1 ≠ []) := by
  simp [ctrFresh, Counter.init, Counter.flush]

/-- C1 amended: for Gauge, BucketGauge, Count, MonotonicCount, Histogram,
Set and Rate, a second consecutive flush with no intervening samples
returns an empty record sequence; Counter is the exception — its flush
has no emptiness guard, so the second flush still emits exactly one RATE
record, whose value is `0 / interval`. -/
theorem second_flush_empty_amended :
    (∀ (g : Gauge) (t i t' i' : ℚ),
      (Gauge.flush (Gauge.flush g t i).2 t' i').1 = []) ∧
    (∀ (g : Gauge) (t i t' i' : ℚ),
      (BucketGauge.flush (BucketGauge.flush g t i).2 t' i').1 = []) ∧
    (∀ (c : Count) (t i t' i' : ℚ),
      (Count.flush (Count.flush c t i).2 t' i').1 = []) ∧
    (∀ (m : MonotonicCount) (t i t' i' : ℚ),
      (MonotonicCount.flush (MonotonicCount.flush m t i).2 t' i').1 = []) ∧
    (∀ (h : Histogram) (t i t' i' : ℚ),
      (Histogram.flush (Histogram.flush h t i).2 t' i').1 = []) ∧
    (∀ (s : SetMetric) (t i t' i' : ℚ),
      (SetMetric.flush (SetMetric.flush s t i).2 t' i').1 = []) ∧
    (∀ (r : Rate) (t i t' i' : ℚ),
      (Rate.flush (Rate.flush r t i).2 t' i').1 = []) ∧
    (∀ (c : Counter) (t i t' i' : ℚ), 0 < i → 0 < i' →
      (Counter.flush (Counter.flush c t i).2 t' i').1.map Record.value = [0 / i']) := by
  refine ⟨?_, ?_, ?_, ?_, ?_, ?_, ?_, ?_⟩
  · intro g t i t' i'
    cases hv : g.value <;> simp [Gauge.flush, hv]
  · intro g t i t' i'
    cases hv : g.value <;> simp [BucketGauge.flush, hv]
  · intro c t i t' i'
    cases hv : c.value <;> simp [Count.flush, hv]
  · intro m t i t' i'
    cases hv : m.count <;> simp [MonotonicCount.flush, hv]
  · intro h t i t' i'
    by_cases hc : h.count = 0 <;> simp [Histogram.flush, hc]
  · intro s t i t' i'
    by_cases hv : s.values = ∅ <;> simp [SetMetric.flush, hv]
  · intro r t i t' i'
    have key : ∀ rr : Rate, rr.samples.length < 2 → (Rate.flush rr t' i').1 = [] := by
      intro rr h
      simp [Rate.flush, h]
    by_cases hl : r.samples.length < 2
    · have h2 : (Rate.flush r t i).2 = r := by simp [Rate.flush, hl]
      rw [h2]
      exact key r hl
    · apply key
      cases he : Rate.rateOf (r.samples.getD (r.samples.length - 2) (0, 0))
          (r.samples.getD (r.samples.length - 1) (0, 0)) <;>
        · simp only [Rate.flush, if_neg hl, he]
          simp only [List.length_drop]
          omega
  · intro c t i t' i' hi hi'
    simp [Counter.flush]

/-- C1 amended witness: the Counter conjunct instantiated on a fresh
Counter with positive intervals — the second flush still emits one
record. -/
theorem second_flush_empty_amended_witness :
    (Counter.flush (Counter.flush ctrFresh 1 1).2 2 1).1.map Record.value
      = [0 / 1] :=
  second_flush_empty_amended.2.2.2.2.2.2.2 ctrFresh 1 1 2 1 (by norm_num)
    (by norm_num)

/-- C4 counterexample: with `sampleRate = 3/5` (so `1/sampleRate = 5/3`),
`Counter.sample(1, 3/5)` increases `value` by `int(5/3) = 1`, not by
`round(5/3) = 2`, and `Histogram.sample(1, 3/5)` increases `count` by
`1`, not `2`: the multiplicity correction truncates, it does not round to
nearest. -/
theorem sample_rate_rounding_counterexample :
    ¬ ((ctrFresh.sample 1 (3/5) 0 none).value
        = ctrFresh.value + 1 * (pyRound (1 / (3/5)) : ℚ)) ∧
    ¬ ((histFresh.sample 1 (3/5) 0 none).count
        = histFresh.count + pyRound (1 / (3/5))) := by
  constructor <;>
    norm_num [ctrFresh, histFresh, Counter.init, Counter.sample, Histogram.init,
      Histogram.sample, pyInt, pyRound, Int.fract]

/-- C4 amended: for `sampleRate` in `(0, 1]`, `Counter.sample(v,
sampleRate)` increases `value` by exactly `v * ⌊1/sampleRate⌋`
(truncation toward zero, which on `(0, 1]` is the floor, and is at least
1), and `Histogram.sample(v, sampleRate)` increases `count` by exactly
`⌊1/sampleRate⌋` while appending the single raw value `v` to `samples`. -/
theorem sample_rate_truncation_amended (c : Counter) (h : Histogram)
    (v sr now : ℚ) (ts : Option ℚ) (h0 : 0 < sr) (h1 : sr ≤ 1) :
    (c.sample v sr now ts).value = c.value + v * ((⌊1/sr⌋ : ℤ) : ℚ) ∧
    (h.sample v sr now ts).count = h.count + ⌊1/sr⌋ ∧
    (h.sample v sr now ts).samples = h.samples ++ [v] ∧
    1 ≤ ⌊(1:ℚ)/sr⌋ := by
  have hpos : (0:ℚ) ≤ sr⁻¹ := by positivity
  have hint : pyInt sr⁻¹ = ⌊sr⁻¹⌋ := by
    unfold pyInt
    rw [if_pos hpos]
  have hge : (1:ℚ) ≤ 1 / sr := by
    rw [le_div_iff₀ h0]
    simpa using h1
  exact ⟨by simp [Counter.sample, one_div, hint], by simp [Histogram.sample, one_div, hint],
    by simp [Histogram.sample], Int.le_floor.mpr (by exact_mod_cast hge)⟩

/-- C4 amended witness: instantiated at `sampleRate = 2/5`
(`⌊5/2⌋ = 2`) on fresh accumulators. -/
theorem sample_rate_truncation_amended_witness :
    (ctrFresh.sample 3 (2/5) 0 none).value
        = ctrFresh.value + 3 * ((⌊(1:ℚ)/(2/5)⌋ : ℤ) : ℚ) ∧
    (histFresh.sample 3 (2/5) 0 none).count = histFresh.count + ⌊(1:ℚ)/(2/5)⌋ ∧
    (histFresh.sample 3 (2/5) 0 none).samples = histFresh.samples ++ [3] ∧
    1 ≤ ⌊(1:ℚ)/(2/5)⌋ :=
  sample_rate_truncation_amended ctrFresh histFresh 3 (2/5) 0 none (by norm_num)
    (by norm_num)

/-- C3 counterexample: in the flush of a default histogram holding
samples 5, 1, 9, 3, the `m.95percentile` record is built with no
`device_name` argument at all — not every emitted record carries a
deviceName field. -/
theorem percentile_device_name_counterexample :
    ¬ (∀ r ∈ (histEx.flush 100 1).1, r.deviceName ≠ none) := by
  rw [histEx_flush_records]
  intro hall
  exact hall
    { metric := "m.95percentile", value := 9, timestamp := 100, tags := [],
      hostname := "h", deviceName := none, metricType := MetricTypes.gauge,
      interval := 1 } (by simp) rfl

/-- C3 amended: every record emitted by any variant's flush carries
metric, value, timestamp, tags, hostname, kind (one of GAUGE, RATE,
COUNT, as stated per variant) and interval, and carries
`deviceName = device_name` — with the single exception of Histogram's
per-percentile records, which are built without a deviceName argument;
within a Histogram flush, the records lacking deviceName are exactly the
percentile ones (one per configured percentile). -/
theorem record_fields_devicename_amended :
    (∀ (g : Gauge) (t i : ℚ), ∀ r ∈ (Gauge.flush g t i).1,
        r.deviceName = some g.device_name ∧ r.metricType = MetricTypes.gauge) ∧
    (∀ (g : Gauge) (t i : ℚ), ∀ r ∈ (BucketGauge.flush g t i).1,
        r.deviceName = some g.device_name ∧ r.metricType = MetricTypes.gauge) ∧
    (∀ (c : Count) (t i : ℚ), ∀ r ∈ (Count.flush c t i).1,
        r.deviceName = some c.device_name ∧ r.metricType = MetricTypes.count) ∧
    (∀ (m : MonotonicCount) (t i : ℚ), ∀ r ∈ (MonotonicCount.flush m t i).1,
        r.deviceName = some m.device_name ∧ r.metricType = MetricTypes.count) ∧
    (∀ (c : Counter) (t i : ℚ), ∀ r ∈ (Counter.flush c t i).1,
        r.deviceName = some c.device_name ∧ r.metricType = MetricTypes.rate) ∧
    (∀ (s : SetMetric) (t i : ℚ), ∀ r ∈ (SetMetric.flush s t i).1,
        r.deviceName = some s.device_name ∧ r.metricType = MetricTypes.gauge) ∧
    (∀ (r : Rate) (t i : ℚ), ∀ rec ∈ (Rate.flush r t i).1,
        rec.deviceName = some r.device_name ∧ rec.metricType = MetricTypes.gauge) ∧
    (∀ (h : Histogram) (t i : ℚ),
       (∀ r ∈ (Histogram.flush h t i).1,
          (r.deviceName = some h.device_name ∨ r.deviceName = none) ∧
          (r.metricType = MetricTypes.gauge ∨ r.metricType = MetricTypes.rate)) ∧
       ((Histogram.flush h t i).1.filter (fun r => r.deviceName.isNone)).length
          = if h.count = 0 then 0 else h.percentiles.length) := by
  refine ⟨?_, ?_, ?_, ?_, ?_, ?_, ?_, ?_⟩
  · intro g t i r hr
    cases hv : g.value <;> simp [Gauge.flush, hv] at hr
    subst hr
    simp
  · intro g t i r hr
    cases hv : g.value <;> simp [BucketGauge.flush, hv] at hr
    subst hr
    simp
  · intro c t i r hr
    cases hv : c.value <;> simp [Count.flush, hv] at hr
    subst hr
    simp
  · intro m t i r hr
    cases hv : m.count <;> simp [MonotonicCount.flush, hv] at hr
    subst hr
    simp
  · intro c t i r hr
    simp [Counter.flush] at hr
    subst hr
    simp
  · intro s t i r hr
    by_cases hv : s.values = ∅ <;> simp [SetMetric.flush, hv] at hr
    subst hr
    simp
  · intro r t i rec hrec
    by_cases hl : r.samples.length < 2
    · simp [Rate.flush, hl] at hrec
    · cases he : Rate.rateOf (r.samples.getD (r.samples.length - 2) (0, 0))
          (r.samples.getD (r.samples.length - 1) (0, 0))
      · simp only [Rate.flush, if_neg hl, he] at hrec
        simp at hrec
      · simp only [Rate.flush, if_neg hl, he] at hrec
        simp at hrec
        subst hrec
        simp
  · intro h t i
    constructor
    · intro r hr
      by_cases hc : h.count = 0
      · simp [Histogram.flush, hc] at hr
      · simp only [Histogram.flush, if_neg hc] at hr
        rw [List.mem_append] at hr
        rcases hr with hr | hr
        · rw [List.mem_map] at hr
          obtain ⟨a, ha, rfl⟩ := hr
          rw [List.mem_filter] at ha
          have ha' := ha.1
          simp only [List.mem_cons, List.not_mem_nil, or_false] at ha'
          rcases ha' with rfl | rfl | rfl | rfl | rfl | rfl <;> simp
        · rw [List.mem_map] at hr
          obtain ⟨p, hp, rfl⟩ := hr
          simp
    · by_cases hc : h.count = 0
      · simp [Histogram.flush, hc]
      · simp only [Histogram.flush, if_neg hc]
        rw [List.filter_append, List.filter_map, List.filter_map]
        simp [Function.comp, hc]

/-- C3 amended witness: the Count conjunct instantiated on a sampled
Count, whose single flushed record carries `deviceName = some "d"` and
kind COUNT. -/
theorem record_fields_devicename_amended_witness :
    ({ metric := "c", value := 7, timestamp := 1, tags := [], hostname := "h",
       deviceName := some "d", metricType := MetricTypes.count,
       interval := 2 } : Record).deviceName
        = some ((Count.init "c" [] "h" "d").sample 7 1 0 none).device_name ∧
    ({ metric := "c", value := 7, timestamp := 1, tags := [], hostname := "h",
       deviceName := some "d", metricType := MetricTypes.count,
       interval := 2 } : Record).metricType = MetricTypes.count :=
  record_fields_devicename_amended.2.2.1 ((Count.init "c" [] "h" "d").sample 7 1 0 none)
    1 2 _ (by norm_num [Count.init, Count.sample, Count.flush, pyOr])

/-- Dropping all but the last element of a non-empty list leaves exactly
its last element. -/
lemma drop_length_sub_one {α : Type} (d : α) :
    ∀ (l : List α), l ≠ [] → l.drop (l.length - 1) = [l.getD (l.length - 1) d] := by
  intro l
  induction l with
  | nil => intro h; exact absurd rfl h
  | cons a l ih =>
    intro _
    cases l with
    | nil => simp
    | cons b m =>
      have step := ih (by simp)
      simpa using step

/-- C6: whenever a Rate holds at least two samples and the two most
recent ones have a zero timestamp difference or a negative value
difference, `flush` emits no record (returning, not raising) and retains
exactly the single most recent sample. -/
theorem rate_suppression (r : Rate) (t i : ℚ)
    (h2 : 2 ≤ r.samples.length)
    (hsup : (r.samples.getD (r.samples.length - 1) (0, 0)).1
              - (r.samples.getD (r.samples.length - 2) (0, 0)).1 = 0
          ∨ (r.samples.getD (r.samples.length - 1) (0, 0)).2
              - (r.samples.getD (r.samples.length - 2) (0, 0)).2 < 0) :
    (r.flush t i).1 = [] ∧
    (r.flush t i).2.samples = [r.samples.getD (r.samples.length - 1) (0, 0)] := by
  have hne : r.samples ≠ [] := by
    intro h
    rw [h] at h2
    simp at h2
  have hlt : ¬ (r.samples.length < 2) := not_lt.mpr h2
  have herr : ∃ e, Rate.rateOf (r.samples.getD (r.samples.length - 2) (0, 0))
      (r.samples.getD (r.samples.length - 1) (0, 0)) = Except.error e := by
    rcases hsup with h0 | hneg
    · exact ⟨RateError.infinity, by
        simp only [Rate.rateOf]
        rw [if_pos h0]⟩
    · by_cases hz : (r.samples.getD (r.samples.length - 1) (0, 0)).1
          - (r.samples.getD (r.samples.length - 2) (0, 0)).1 = 0
      · exact ⟨RateError.infinity, by
          simp only [Rate.rateOf]
          rw [if_pos hz]⟩
      · exact ⟨RateError.unknownValue, by
          simp only [Rate.rateOf]
          rw [if_neg hz, if_pos hneg]⟩
  obtain ⟨e, he⟩ := herr
  constructor
  · simp only [Rate.flush, if_neg hlt, he]
  · simp only [Rate.flush, if_neg hlt, he]
    exact drop_length_sub_one (0, 0) r.samples hne

/-- C6 witness: a Rate holding two samples taken at the same wall-clock
second flushes nothing and keeps only the most recent sample. -/
theorem rate_suppression_witness :
    (((rateFresh.sample 10 1 5 none).sample 20 1 5 none).flush 9 10).1 = [] ∧
    (((rateFresh.sample 10 1 5 none).sample 20 1 5 none).flush 9 10).2.samples
      = [((rateFresh.sample 10 1 5 none).sample 20 1 5 none).samples.getD
          (((rateFresh.sample 10 1 5 none).sample 20 1 5 none).samples.length - 1)
          (0, 0)] :=
  rate_suppression ((rateFresh.sample 10 1 5 none).sample 20 1 5 none) 9 10
    (by norm_num [rateFresh, Rate.init, Rate.sample])
    (Or.inl (by norm_num [rateFresh, Rate.init, Rate.sample, pyInt]))

/-- After a non-empty run of `sample` calls, a Gauge's stored value is
the value of the last call. -/
lemma runWith_gauge_value :
    ∀ (calls : List SampleCall) (g : Gauge) (h : calls ≠ []),
      (runWith Gauge.sample g calls).value = some (calls.getLast h).value := by
  intro calls
  induction calls with
  | nil => intro g h; exact absurd rfl h
  | cons c rest ih =>
    intro g h
    cases rest with
    | nil => rfl
    | cons c2 r2 =>
      exact ih (g.sample c.value c.sample_rate c.now c.timestamp) (by simp)

/-- C8: any non-empty sequence of `Gauge.sample` calls followed by one
flush emits exactly one GAUGE record whose value is the last sampled
value (last-write-wins, no averaging), and afterwards the stored value
is unset. -/
theorem gauge_last_write_wins (g : Gauge) (calls : List SampleCall)
    (h : calls ≠ []) (t i : ℚ) :
    ((runWith Gauge.sample g calls).flush t i).1.map Record.value
        = [(calls.getLast h).value] ∧
    ((runWith Gauge.sample g calls).flush t i).1.map Record.metricType
        = [MetricTypes.gauge] ∧
    ((runWith Gauge.sample g calls).flush t i).2.value = none := by
  have hv := runWith_gauge_value calls g h
  refine ⟨?_, ?_, ?_⟩ <;> simp [Gauge.flush, hv]

/-- C8 witness: `sample(1); sample(2); flush` on a fresh gauge. -/
theorem gauge_last_write_wins_witness :
    ((runWith Gauge.sample gaugeFresh
        [⟨1, 1, 0, none⟩, ⟨2, 1, 0, none⟩]).flush 7 10).1.map Record.value
      = [(([⟨1, 1, 0, none⟩, ⟨2, 1, 0, none⟩] : List SampleCall).getLast
          (by simp)).value] ∧
    ((runWith Gauge.sample gaugeFresh
        [⟨1, 1, 0, none⟩, ⟨2, 1, 0, none⟩]).flush 7 10).1.map Record.metricType
      = [MetricTypes.gauge] ∧
    ((runWith Gauge.sample gaugeFresh
        [⟨1, 1, 0, none⟩, ⟨2, 1, 0, none⟩]).flush 7 10).2.value = none :=
  gauge_last_write_wins gaugeFresh [⟨1, 1, 0, none⟩, ⟨2, 1, 0, none⟩] (by simp) 7 10

/-- Folding two call lists that agree except on `sample_rate` through a
`sample` function that ignores its rate argument gives the same state. -/
lemma runWith_rate_blind {σ : Type} (smp : σ → ℚ → ℚ → ℚ → Option ℚ → σ)
    (hs : ∀ (st : σ) (v r1 r2 now : ℚ) (ts : Option ℚ),
        smp st v r1 now ts = smp st v r2 now ts) :
    ∀ (calls1 calls2 : List SampleCall),
      calls1.map SampleCall.dropRate = calls2.map SampleCall.dropRate →
      ∀ s, runWith smp s calls1 = runWith smp s calls2 := by
  intro calls1
  induction calls1 with
  | nil =>
    intro calls2 hmap s
    cases calls2 with
    | nil => rfl
    | cons _ _ => simp at hmap
  | cons c rest ih =>
    intro calls2 hmap s
    cases calls2 with
    | nil => simp at hmap
    | cons c2 rest2 =>
      simp only [List.map_cons, List.cons.injEq] at hmap
      obtain ⟨hc, hrest⟩ := hmap
      have hfields : c.value = c2.value ∧ c.now = c2.now ∧ c.timestamp = c2.timestamp := by
        simpa [SampleCall.dropRate, Prod.ext_iff] using hc
      obtain ⟨hv, hn, ht⟩ := hfields
      show runWith smp (smp s c.value c.sample_rate c.now c.timestamp) rest
          = runWith smp (smp s c2.value c2.sample_rate c2.now c2.timestamp) rest2
      rw [hv, hn, ht, hs s c2.value c.sample_rate c2.sample_rate c2.now c2.timestamp]
      exact ih rest2 hrest _

/-- C9: for Gauge, BucketGauge, Count, MonotonicCount, Set and Rate the
`sample_rate` argument has no effect — two runs of the same call
sequence differing only in the sample rates produce identical
accumulator state and identical flush output. -/
theorem sample_rate_no_effect (calls1 calls2 : List SampleCall)
    (hmap : calls1.map SampleCall.dropRate = calls2.map SampleCall.dropRate)
    (t i : ℚ) :
    (∀ g : Gauge, runWith Gauge.sample g calls1 = runWith Gauge.sample g calls2 ∧
        Gauge.flush (runWith Gauge.sample g calls1) t i
          = Gauge.flush (runWith Gauge.sample g calls2) t i ∧
        BucketGauge.flush (runWith Gauge.sample g calls1) t i
          = BucketGauge.flush (runWith Gauge.sample g calls2) t i) ∧
    (∀ c : Count, runWith Count.sample c calls1 = runWith Count.sample c calls2 ∧
        Count.flush (runWith Count.sample c calls1) t i
          = Count.flush (runWith Count.sample c calls2) t i) ∧
    (∀ m : MonotonicCount,
        runWith MonotonicCount.sample m calls1 = runWith MonotonicCount.sample m calls2 ∧
        MonotonicCount.flush (runWith MonotonicCount.sample m calls1) t i
          = MonotonicCount.flush (runWith MonotonicCount.sample m calls2) t i) ∧
    (∀ s : SetMetric,
        runWith SetMetric.sample s calls1 = runWith SetMetric.sample s calls2 ∧
        SetMetric.flush (runWith SetMetric.sample s calls1) t i
          = SetMetric.flush (runWith SetMetric.sample s calls2) t i) ∧
    (∀ r : Rate, runWith Rate.sample r calls1 = runWith Rate.sample r calls2 ∧
        Rate.flush (runWith Rate.sample r calls1) t i
          = Rate.flush (runWith Rate.sample r calls2) t i) := by
  have hg := runWith_rate_blind Gauge.sample (fun _ _ _ _ _ _ => rfl) calls1 calls2 hmap
  have hc := runWith_rate_blind Count.sample (fun _ _ _ _ _ _ => rfl) calls1 calls2 hmap
  have hm := runWith_rate_blind MonotonicCount.sample (fun _ _ _ _ _ _ => rfl)
    calls1 calls2 hmap
  have hst := runWith_rate_blind SetMetric.sample (fun _ _ _ _ _ _ => rfl)
    calls1 calls2 hmap
  have hr := runWith_rate_blind Rate.sample (fun _ _ _ _ _ _ => rfl) calls1 calls2 hmap
  exact ⟨fun g => ⟨hg g, by rw [hg g], by rw [hg g]⟩,
    fun c => ⟨hc c, by rw [hc c]⟩,
    fun m => ⟨hm m, by rw [hm m]⟩,
    fun s => ⟨hst s, by rw [hst s]⟩,
    fun r => ⟨hr r, by rw [hr r]⟩⟩

/-- C9 witness: the Gauge conjunct instantiated on call lists differing
only in sample rate (1 versus 1/2). -/
theorem sample_rate_no_effect_witness :
    runWith Gauge.sample gaugeFresh [⟨3, 1, 0, none⟩]
        = runWith Gauge.sample gaugeFresh [⟨3, 1/2, 0, none⟩] ∧
    Gauge.flush (runWith Gauge.sample gaugeFresh [⟨3, 1, 0, none⟩]) 7 10
        = Gauge.flush (runWith Gauge.sample gaugeFresh [⟨3, 1/2, 0, none⟩]) 7 10 ∧
    BucketGauge.flush (runWith Gauge.sample gaugeFresh [⟨3, 1, 0, none⟩]) 7 10
        = BucketGauge.flush (runWith Gauge.sample gaugeFresh [⟨3, 1/2, 0, none⟩]) 7 10 :=
  (sample_rate_no_effect [⟨3, 1, 0, none⟩] [⟨3, 1/2, 0, none⟩]
    (by simp [SampleCall.dropRate]) 7 10).1 gaugeFresh

/-- C10: if the last `Gauge.sample` before a flush carried no
caller-supplied timestamp, or carried the timestamp `0` (falsy in the
`self.timestamp or timestamp` test), the emitted record's timestamp is
the flush timestamp. -/
theorem gauge_zero_timestamp_attribution (g : Gauge) (v rate now : ℚ)
    (ts : Option ℚ) (hts : ts = none ∨ ts = some 0) (t i : ℚ) :
    ((g.sample v rate now ts).flush t i).1.map Record.timestamp = [t] := by
  rcases hts with rfl | rfl <;> simp [Gauge.sample, Gauge.flush, pyOr]

/-- C10 witness: instantiated both at an absent timestamp and, via a
second sample, checked concretely at timestamp 0 through the same
theorem. -/
theorem gauge_zero_timestamp_attribution_witness :
    ((gaugeFresh.sample 4 1 0 (some 0)).flush 9 10).1.map Record.timestamp = [9] :=
  gauge_zero_timestamp_attribution gaugeFresh 4 1 0 (some 0) (Or.inr rfl) 9 10
